import Mathlib

/- Shallow embedding of src/services/freeLLMService.ts (class FreeLLMService).

   Conventions of the embedding:
   - JS numbers that hold millisecond timestamps or counters are modelled as Nat
     (Date.now() is passed in explicitly as an oracle field `now`).
   - The process environment (one credential string per provider) is an explicit
     parameter `Env := Provider → Option String`.
   - A network call to a provider is modelled by an oracle
     `net : Provider → Option String`: `some s` is an HTTP success whose
     extracted completion text is `s` (an absent/empty JSON field is modelled by
     `s = ""`, on which the source substitutes an apology placeholder via `||`),
     and `none` is a thrown error (non-ok HTTP status or network failure).
   - Math.random() placeholder pricing/stock in parseAIResponse is modelled by
     oracle functions `price : Nat → Nat` and `stock : Nat → Bool` indexed by
     the match index.
   - Mutation of `this.requestCounts` / `this.currentProvider` is explicit
     state passing of a `ServiceState`.
   - `processMessage` additionally returns the list of providers on which
     `callLLMProvider` was invoked (the invocation trace), in order. -/

inductive Provider where
  | GROQ
  | TOGETHER
  | COHERE
  | HUGGING_FACE
deriving DecidableEq, Repr

/-- `FREE_LLM_PROVIDERS[p].name` (freeLLMService.ts lines 13-42). -/
def providerName : Provider → String
  | Provider.GROQ => "Groq"
  | Provider.TOGETHER => "Together AI"
  | Provider.COHERE => "Cohere"
  | Provider.HUGGING_FACE => "Hugging Face"

/-- `FREE_LLM_PROVIDERS[p].rateLimit` (requests per minute, lines 13-42). -/
def rateLimit : Provider → Nat
  | Provider.GROQ => 30
  | Provider.TOGETHER => 60
  | Provider.COHERE => 100
  | Provider.HUGGING_FACE => 30

/-- `listStartsWith pat s` : `pat` is a prefix of `s` (character-wise). -/
def listStartsWith : List Char → List Char → Bool
  | [], _ => true
  | _ :: _, [] => false
  | p :: ps, c :: cs => p == c && listStartsWith ps cs

def hasSubstrAux (pat : List Char) : List Char → Bool
  | [] => listStartsWith pat []
  | c :: cs => listStartsWith pat (c :: cs) || hasSubstrAux pat cs

/-- JS `s.includes(pat)`. -/
def hasSubstr (s pat : String) : Bool := hasSubstrAux pat.toList s.toList

/-- JS `\s` (whitespace class); the inputs considered use ASCII whitespace,
    on which `Char.isWhitespace` agrees with JS. -/
def isWs (c : Char) : Bool := c.isWhitespace

/-- JS `s.trim()`: strip whitespace from both ends. (The core `String.trim`
    is not kernel-evaluable; this list version has the same semantics.) -/
def jsTrim (s : String) : String :=
  String.mk (((s.toList.dropWhile isWs).reverse.dropWhile isWs).reverse)

/-- JS `s.toLowerCase()` (the texts compared are ASCII). -/
def jsToLower (s : String) : String := String.mk (s.toList.map Char.toLower)

def splitCharAux (sep : Char) : List Char → List (List Char)
  | [] => [[]]
  | c :: cs =>
    let r := splitCharAux sep cs
    if c = sep then
      [] :: r
    else
      match r with
      | h :: t => (c :: h) :: t
      | [] => [[c]]

/-- JS `s.split(sep)` for a one-character separator. -/
def splitChar (sep : Char) (s : String) : List String :=
  (splitCharAux sep s.toList).map String.mk

/-- The process environment: the credential string configured for each
    provider (`process.env.EXPO_PUBLIC_*_API_KEY`), if any. -/
def Env : Type := Provider → Option String

/-- `getValidApiKey` (lines 107-134): the configured key, unless it is absent,
    contains a placeholder marker, or is blank after trimming. -/
def getValidApiKey (env : Env) (p : Provider) : Option String :=
  match env p with
  | none => none
  | some apiKey =>
    if hasSubstr apiKey ("your_") || hasSubstr apiKey ("_api_key_here")
        || jsTrim apiKey = "" then
      none
    else
      some apiKey

/-- `hasConfiguredProviders` (lines 95-102). -/
def hasConfiguredProviders (env : Env) : Bool :=
  (getValidApiKey env Provider.GROQ).isSome
    || (getValidApiKey env Provider.TOGETHER).isSome
    || (getValidApiKey env Provider.COHERE).isSome
    || (getValidApiKey env Provider.HUGGING_FACE).isSome

/-- `getAvailableProviders` (lines 139-148): pushes in the fixed order
    GROQ, TOGETHER, COHERE, HUGGING_FACE. -/
def getAvailableProviders (env : Env) : List Provider :=
  (if (getValidApiKey env Provider.GROQ).isSome then [Provider.GROQ] else [])
    ++ (if (getValidApiKey env Provider.TOGETHER).isSome then [Provider.TOGETHER] else [])
    ++ (if (getValidApiKey env Provider.COHERE).isSome then [Provider.COHERE] else [])
    ++ (if (getValidApiKey env Provider.HUGGING_FACE).isSome then [Provider.HUGGING_FACE] else [])

/-- An entry of `this.requestCounts` (line 85): `{ count, resetTime }`. -/
structure RateData where
  count : Nat
  resetTime : Nat
deriving DecidableEq, Repr

/-- The mutable fields of the FreeLLMService instance (lines 84-85). -/
structure ServiceState where
  currentProvider : Provider
  requestCounts : Provider → Option RateData

/-- The constructor (lines 88-90): `currentProvider = 'GROQ'`, empty counts. -/
def initState : ServiceState :=
  { currentProvider := Provider.GROQ, requestCounts := fun _ => none }

/-- Replace the `requestCounts` entry of one provider. -/
def setCount (st : ServiceState) (p : Provider) (v : Option RateData) : ServiceState :=
  { st with requestCounts := fun q => if q = p then v else st.requestCounts q }

/-- The boolean decided by `isRateLimited` (lines 520-536), as a pure function
    of the provider's entry. -/
def limitedPure (now : Nat) (rd? : Option RateData) (lim : Nat) : Bool :=
  match rd? with
  | none => false
  | some rd => if now > rd.resetTime then false else decide (rd.count ≥ lim)

/-- `isRateLimited` (lines 520-536). Returns the boolean together with the
    state after the side effect (`delete this.requestCounts[provider]` when the
    window has expired). -/
def isRateLimited (now : Nat) (st : ServiceState) (p : Provider) : Bool × ServiceState :=
  match st.requestCounts p with
  | none => (false, st)
  | some requestData =>
    if now > requestData.resetTime then
      (false, setCount st p none)
    else
      (decide (requestData.count ≥ rateLimit p), st)

/-- `updateRequestCount` (lines 541-550). -/
def updateRequestCount (now : Nat) (st : ServiceState) (p : Provider) : ServiceState :=
  let resetTime := now + 60000
  match st.requestCounts p with
  | none => setCount st p (some { count := 1, resetTime := resetTime })
  | some rd =>
    if now > rd.resetTime then
      setCount st p (some { count := 1, resetTime := resetTime })
    else
      setCount st p (some { count := rd.count + 1, resetTime := rd.resetTime })

/-- `LLMRequest` (lines 44-53). The conversation history and user id fields
    only shape the outbound prompt text, which this embedding does not observe
    (the network is an oracle); they are omitted. -/
structure LLMRequest where
  message : String
  equipmentSerialNumbers : Option (List String) := none
  provider : Option Provider := none

/-- `PartSuggestion` (lines 64-72). -/
structure PartSuggestion where
  partNumber : String
  name : String
  compatibility : List String
  price : Nat
  inStock : Bool
  aiRecommended : Bool
  reasonForSuggestion : String
deriving DecidableEq, Repr

/-- `FaultCodeInfo` (lines 74-81). The TS declaration restricts `severity` to
    the union 'low' | 'medium' | 'high' | 'critical', but the value stored at
    line 472 is an arbitrary string forced in by an `as any` cast; the runtime
    truth is therefore a plain string, which is what we model. -/
structure FaultCodeInfo where
  code : String
  description : String
  severity : String
  possibleCauses : List String
  recommendedActions : List String
  relatedParts : List String
deriving DecidableEq, Repr

/-- `LLMResponse` (lines 55-62). -/
structure LLMResponse where
  message : String
  suggestions : Option (List PartSuggestion) := none
  faultCodeInfo : Option FaultCodeInfo := none
  troubleshootingSteps : Option (List String) := none
  confidence : ℚ
  provider : String
deriving DecidableEq, Repr

/-- The oracle bundling every external effect consulted by the service. -/
structure Oracle where
  now : Nat
  net : Provider → Option String
  price : Nat → Nat
  stock : Nat → Bool

/-- The apology placeholder substituted (via `||`) for a missing or empty
    completion field in each provider call (lines 248, 291, 326, 362). -/
def apologyText : String := "I apologize, but I couldn\x27t process your request."

/-- The canned parts-flavoured offline text (line 597). -/
def partsFallbackText : String :=
  "I can help you find parts for your Cat equipment. Please provide your equipment serial number or describe the specific part you need. You can also use the camera feature to identify parts visually."

/-- The canned fault-code-flavoured offline text (line 599). -/
def faultFallbackText : String :=
  "I can help diagnose fault codes. Please provide the specific fault code you\x27re seeing, along with your equipment model. Common fault codes include engine, hydraulic, and electrical system errors."

/-- The canned maintenance-flavoured offline text (line 601). -/
def maintenanceFallbackText : String :=
  "I can provide maintenance guidance for your Cat equipment. Please specify your equipment model and the type of maintenance you need help with - routine service, preventive maintenance, or specific repairs."

/-- The canned generic offline text (line 603). -/
def genericFallbackText : String :=
  "I\x27m here to help with your Cat equipment needs. I can assist with parts identification, fault code diagnosis, maintenance schedules, and general equipment support. How can I help you today?"

/-- `getOfflineFallbackResponse` (lines 591-611). Keyword checks run on the
    lowercased message, parts/component first. -/
def getOfflineFallbackResponse (message : String) : LLMResponse :=
  let lowerMessage := jsToLower message
  let fallbackMessage :=
    if hasSubstr lowerMessage ("part") || hasSubstr lowerMessage ("component") then
      partsFallbackText
    else if hasSubstr lowerMessage ("fault") || hasSubstr lowerMessage ("error")
        || hasSubstr lowerMessage ("code") then
      faultFallbackText
    else if hasSubstr lowerMessage ("maintenance") || hasSubstr lowerMessage ("service") then
      maintenanceFallbackText
    else
      genericFallbackText
  { message := fallbackMessage
    confidence := 0.6
    provider := "Offline Fallback" }

/-- `getConfigurationRequiredResponse` (lines 555-586). -/
def getConfigurationRequiredResponse (_message : String) : LLMResponse :=
  { message := "🔧 **AI Assistant Setup Required**\n\nTo use the AI assistant, you need to configure at least one API key in your environment variables. Here are your free options:\n\n**Quick Setup (Recommended):**\n1. **Groq** (Fastest) - Get free API key at https://console.groq.com/\n2. **Together AI** - Get $25 free credits at https://api.together.xyz/\n3. **Cohere** - Get 1000 free requests at https://dashboard.cohere.ai/\n4. **Hugging Face** - Get unlimited free tier at https://huggingface.co/settings/tokens\n\n**Setup Steps:**\n1. Get an API key from any provider above\n2. Replace the placeholder values in your .env file:\n   - Replace \x27your_groq_api_key_here\x27 with your actual Groq API key\n   - Replace \x27your_together_api_key_here\x27 with your actual Together AI API key\n   - Replace \x27your_cohere_api_key_here\x27 with your actual Cohere API key\n   - Replace \x27your_huggingface_api_key_here\x27 with your actual Hugging Face API key\n3. Restart the application\n\nOnce configured, I\x27ll be able to help you with:\n- Parts identification and compatibility\n- Fault code diagnosis\n- Maintenance guidance\n- Equipment troubleshooting\n\nFor detailed setup instructions, check the README_FREE_LLM_SETUP.md file."
    confidence := 1.0
    provider := "Configuration Helper" }

/-- A literal under the /i flag: strip `pat` from the front of `s` comparing
    characters case-insensitively, returning the rest. -/
def ciStrip : List Char → List Char → Option (List Char)
  | [], s => some s
  | _ :: _, [] => none
  | p :: ps, c :: cs => if p.toLower = c.toLower then ciStrip ps cs else none

/-- Match `\s*(CLASS+)` where CLASS contains every whitespace character it may
    need to steal: the greedy `\s*` takes the maximal whitespace run and the
    group the maximal CLASS run after it; when that run is empty the engine
    backtracks one whitespace character into the group (deeper backtracking
    cannot succeed: the first giveback already decides). Returns the group and
    the rest of the input after it. -/
def wsThenRun (cls : Char → Bool) (s : List Char) : Option (List Char × List Char) :=
  let (w, s1) := s.span isWs
  let (g, s2) := s1.span cls
  if g.isEmpty then
    match w.getLast? with
    | some c => if cls c then some ([c], s1) else none
    | none => none
  else
    some (g, s2)

/-- One attempted match of the part regex (line 449, flags gi)
    `Part:\s*([^(]+)\s*\(Part #:\s*([^)]+)\)\s*-\s*([^\n]+)`
    at the head of `s`: the three capture groups and the rest after the match.
    The `\s*` before `\(` matches empty because `[^(]+` is greedy and cannot
    cross the parenthesis. -/
def partMatchAt (s : List Char) : Option ((String × String × String) × List Char) :=
  match ciStrip ("Part:").toList s with
  | none => none
  | some s1 =>
    match wsThenRun (fun c => c ≠ '(') s1 with
    | none => none
    | some (nameG, s2) =>
      match ciStrip ("(Part #:").toList s2 with
      | none => none
      | some s3 =>
        match wsThenRun (fun c => c ≠ ')') s3 with
        | none => none
        | some (numG, s4) =>
          match s4 with
          | ')' :: s5 =>
            match (s5.span isWs).2 with
            | '-' :: s7 =>
              match wsThenRun (fun c => c ≠ '\n') s7 with
              | none => none
              | some (descG, s8) =>
                some ((String.mk nameG, String.mk numG, String.mk descG), s8)
            | _ => none
          | _ => none

/-- The global scan of `aiMessage.match(/.../gi)` (line 449): successive
    non-overlapping matches, left to right.  The source re-matches each
    matched substring to read its capture groups (line 452); re-matching the
    matched text reproduces the same groups, so they are returned directly.
    Fuel bounds the scan by the input length. -/
def partScanAux : Nat → List Char → List (String × String × String)
  | 0, _ => []
  | _ + 1, [] => []
  | n + 1, c :: cs =>
    match partMatchAt (c :: cs) with
    | some (g, rest) => g :: partScanAux n rest
    | none => partScanAux n cs

def partScan (s : String) : List (String × String × String) :=
  partScanAux (s.toList.length + 1) s.toList

/-- Backtracking for `([^\s]+)\s*-` when the greedy run has swallowed the
    dash: characters are given back right to left, so the dash used is the
    rightmost one at index ≥ 1. Returns the shortened group and the resume
    point just after the dash. -/
def lastDashSplit (code : List Char) : Option (List Char × List Char) :=
  match ((List.range code.length).reverse.filter
      (fun k => decide (1 ≤ k) && code.get? k == some '-')).head? with
  | some k => some (code.take k, code.drop (k + 1))
  | none => none

/-- `[\s\S]*?LABEL:\s*([^\n]+)`: the lazy gap stops at the earliest position
    where the case-insensitive label followed by a line group matches.
    (Backtracking from a failure of a *later* label into this group is not
    modelled; it could only matter when a later label occurs inside an earlier
    captured line.) -/
def lazyLabelLine (label : String) : Nat → List Char → Option (List Char × List Char)
  | 0, _ => none
  | _ + 1, [] => none
  | n + 1, c :: cs =>
    match ciStrip label.toList (c :: cs) with
    | some r =>
      match wsThenRun (fun x => x ≠ '\n') r with
      | some gr => some gr
      | none => lazyLabelLine label n cs
    | none => lazyLabelLine label n cs

/-- One attempted match, at the head of `s`, of the fault-code regex (line
    466, flag i): `Fault Code:\s*([^\s]+)\s*-\s*([^\n]+)` then the lazily
    reached `Severity:`, `Possible Causes:` and `Recommended Actions:` line
    groups. Returns the five capture groups. -/
def faultMatchAt (s : List Char) : Option (String × String × String × String × String) :=
  match ciStrip ("Fault Code:").toList s with
  | none => none
  | some s1 =>
    match wsThenRun (fun c => !(isWs c)) s1 with
    | none => none
    | some (codeG, s2) =>
      let cont : List Char → List Char → Option (String × String × String × String × String) :=
        fun code rem =>
          match wsThenRun (fun c => c ≠ '\n') rem with
          | none => none
          | some (descG, s3) =>
            match lazyLabelLine ("Severity:") (s3.length + 1) s3 with
            | none => none
            | some (sevG, s4) =>
              match lazyLabelLine ("Possible Causes:") (s4.length + 1) s4 with
              | none => none
              | some (causesG, s5) =>
                match lazyLabelLine ("Recommended Actions:") (s5.length + 1) s5 with
                | none => none
                | some (actionsG, _) =>
                  some (String.mk code, String.mk descG, String.mk sevG,
                        String.mk causesG, String.mk actionsG)
      match (s2.span isWs).2 with
      | '-' :: s3 => cont codeG s3
      | _ =>
        match lastDashSplit codeG with
        | some (code2, rem) => cont code2 (rem ++ s2)
        | none => none

/-- The non-global `aiMessage.match(...)` (line 466): the first position, left
    to right, at which the fault-code regex matches. -/
def faultScanAux : Nat → List Char → Option (String × String × String × String × String)
  | 0, _ => none
  | _ + 1, [] => none
  | n + 1, c :: cs =>
    match faultMatchAt (c :: cs) with
    | some r => some r
    | none => faultScanAux n cs

def faultScan (s : String) : Option (String × String × String × String × String) :=
  faultScanAux (s.toList.length + 1) s.toList

/-- The label alternation `(?:Steps?|Actions?):` of the steps regex (line
    480, flag i), longest alternative first as the engine tries it. -/
def stepsLabelStrip (s : List Char) : Option (List Char) :=
  match ciStrip ("Steps:").toList s with
  | some r => some r
  | none =>
    match ciStrip ("Step:").toList s with
    | some r => some r
    | none =>
      match ciStrip ("Actions:").toList s with
      | some r => some r
      | none => ciStrip ("Action:").toList s

/-- One numbered line `\d+\..*\n?`: digits, a dot, the rest of the line and
    its newline when present. Returns the consumed text and the rest. -/
def numberedLine (s : List Char) : Option (List Char × List Char) :=
  let (ds, r1) := s.span Char.isDigit
  if ds.isEmpty then none
  else
    match r1 with
    | '.' :: r2 =>
      let (body, r3) := r2.span (fun c => c ≠ '\n')
      match r3 with
      | '\n' :: r4 => some (ds ++ '.' :: body ++ ['\n'], r4)
      | _ => some (ds ++ '.' :: body, r3)
    | _ => none

/-- `((?:\d+\..*\n?)+)`: the greedy run of one or more numbered lines. -/
def numberedBlock : Nat → List Char → Option (List Char)
  | 0, _ => none
  | n + 1, s =>
    match numberedLine s with
    | none => none
    | some (line, rest) =>
      match numberedBlock n rest with
      | some more => some (line ++ more)
      | none => some line

/-- `\s*\n((?:\d+\..*\n?)+)` after the label: the greedy `\s*` backtracks so
    that its last consumed character is a newline and a numbered block starts
    right after; candidate newlines in the whitespace run are tried rightmost
    first. Returns the captured block. -/
def stepsAfterLabel (s : List Char) : Option (List Char) :=
  let (w, t) := s.span isWs
  ((List.range w.length).reverse.filter (fun i => w.get? i == some '\n')).findSome?
    (fun i => numberedBlock (s.length + 1) (w.drop (i + 1) ++ t))

/-- The non-global steps `match` (line 480): first position at which the label
    and its numbered block match. Returns the captured block. -/
def stepsScanAux : Nat → List Char → Option (List Char)
  | 0, _ => none
  | _ + 1, [] => none
  | n + 1, c :: cs =>
    match stepsLabelStrip (c :: cs) with
    | some r =>
      match stepsAfterLabel r with
      | some block => some block
      | none => stepsScanAux n cs
    | none => stepsScanAux n cs

/-- `step.replace(/^\d+\.\s*/, '').trim()` (line 485). -/
def stripStepNumber (step : String) : String :=
  let cs := step.toList
  let (ds, r1) := cs.span Char.isDigit
  let stripped :=
    if ds.isEmpty then cs
    else
      match r1 with
      | '.' :: r2 => (r2.span isWs).2
      | _ => cs
  jsTrim (String.mk stripped)

/-- Lines 480-486: split the captured block on newlines, keep the lines that
    are non-blank after trimming, strip the numbering. -/
def troubleshootingStepsOf (aiMessage : String) : Option (List String) :=
  match stepsScanAux (aiMessage.toList.length + 1) aiMessage.toList with
  | none => none
  | some block =>
    some (((splitChar '\n' (String.mk block)).filter
      (fun step => jsTrim step ≠ "")).map stripStepNumber)

/-- `parseAIResponse` (lines 441-489). `Math.floor(Math.random() * 500) + 50`
    becomes `o.price idx % 500 + 50` and `Math.random() > 0.3` becomes
    `o.stock idx`, where `idx` is the index of the part match. The
    `?.trim() || ''` on name and part number is the identity on the trimmed
    group (a blank trims to `''` either way). -/
def parseAIResponse (o : Oracle) (req : LLMRequest) (aiMessage : String) : LLMResponse :=
  let partMatches := partScan aiMessage
  let suggestions : Option (List PartSuggestion) :=
    if partMatches.isEmpty then none
    else some (partMatches.enum.map (fun p =>
      { partNumber := jsTrim p.2.2.1
        name := jsTrim p.2.1
        compatibility := req.equipmentSerialNumbers.getD []
        price := o.price p.1 % 500 + 50
        inStock := o.stock p.1
        aiRecommended := true
        reasonForSuggestion :=
          if jsTrim p.2.2.2 = "" then "AI recommended based on your query"
          else jsTrim p.2.2.2 }))
  let faultCodeInfo : Option FaultCodeInfo :=
    match faultScan aiMessage with
    | none => none
    | some (code, description, severity, causes, actions) =>
      some { code := jsTrim code
             description := jsTrim description
             severity :=
               if jsToLower (jsTrim severity) = "" then "medium"
               else jsToLower (jsTrim severity)
             possibleCauses := (splitChar ',' causes).map jsTrim
             recommendedActions := (splitChar ',' actions).map jsTrim
             relatedParts := [] }
  { message := aiMessage
    suggestions := suggestions
    faultCodeInfo := faultCodeInfo
    troubleshootingSteps := troubleshootingStepsOf aiMessage
    confidence := 0.8
    provider := "" }

/-- `callLLMProvider` (lines 191-207) through the per-provider callers (lines
    212-365): throws (`none`) when the key is invalid or the fetch fails; on
    success substitutes the apology placeholder for a missing/empty completion
    (the `|| '...'`) and parses. -/
def callLLMProvider (o : Oracle) (env : Env) (p : Provider) (req : LLMRequest) :
    Option LLMResponse :=
  match getValidApiKey env p with
  | none => none
  | some _ =>
    match o.net p with
    | none => none
    | some content =>
      some (parseAIResponse o req (if content = "" then apologyText else content))

/-- Lines 164-167: the requested provider if any, else `this.currentProvider`;
    kept only when available, else the first available provider.
    (`availableProviders[0]`: the caller guards non-emptiness, so the `headD`
    default is unreachable.) -/
def pickProvider (st : ServiceState) (avail : List Provider) (req : LLMRequest) : Provider :=
  let provider := req.provider.getD st.currentProvider
  if avail.contains provider then provider else avail.headD Provider.GROQ

/-- `tryFallbackProviders` (lines 494-515): walk the provider list, skipping
    the rate-limited, returning the first success (with `currentProvider`
    switched to it); offline fallback when the list is exhausted. The third
    component is the trace of providers on which `callLLMProvider` ran. -/
def tryFallbackProviders (o : Oracle) (env : Env) (req : LLMRequest) :
    List Provider → ServiceState → LLMResponse × ServiceState × List Provider
  | [], st => (getOfflineFallbackResponse req.message, st, [])
  | p :: rest, st =>
    let lim := isRateLimited o.now st p
    if lim.1 then
      tryFallbackProviders o env req rest lim.2
    else
      match callLLMProvider o env p req with
      | some response =>
        ({ response with provider := providerName p },
         { lim.2 with currentProvider := p }, [p])
      | none =>
        let r := tryFallbackProviders o env req rest lim.2
        (r.1, r.2.1, p :: r.2.2)

/-- `processMessage` (lines 153-186). Returns the reply, the state after the
    call, and the trace of providers on which `callLLMProvider` ran. -/
def processMessage (o : Oracle) (env : Env) (st : ServiceState) (req : LLMRequest) :
    LLMResponse × ServiceState × List Provider :=
  if !hasConfiguredProviders env then
    (getConfigurationRequiredResponse req.message, st, [])
  else
    let availableProviders := getAvailableProviders env
    if availableProviders.isEmpty then
      (getConfigurationRequiredResponse req.message, st, [])
    else
      let actualProvider := pickProvider st availableProviders req
      let lim := isRateLimited o.now st actualProvider
      if lim.1 then
        tryFallbackProviders o env req availableProviders lim.2
      else
        match callLLMProvider o env actualProvider req with
        | some response =>
          ({ response with provider := providerName actualProvider },
           updateRequestCount o.now lim.2 actualProvider, [actualProvider])
        | none =>
          let r := tryFallbackProviders o env req availableProviders lim.2
          (r.1, r.2.1, actualProvider :: r.2.2)

/-! ## Basic lemmas about the rate limiter and provider availability -/

@[simp]
lemma setCount_self (st : ServiceState) (p : Provider) (v : Option RateData) :
    (setCount st p v).requestCounts p = v := by
  simp [setCount]

lemma setCount_other (st : ServiceState) (p q : Provider) (v : Option RateData)
    (h : q ≠ p) : (setCount st p v).requestCounts q = st.requestCounts q := by
  simp [setCount, h]

lemma fst_isRateLimited (now : Nat) (st : ServiceState) (p : Provider) :
    (isRateLimited now st p).1 = limitedPure now (st.requestCounts p) (rateLimit p) := by
  unfold isRateLimited limitedPure
  cases h : st.requestCounts p with
  | none => rfl
  | some rd => by_cases hr : now > rd.resetTime <;> simp [hr]

lemma isRateLimited_true_snd (now : Nat) (st : ServiceState) (p : Provider)
    (h : (isRateLimited now st p).1 = true) : (isRateLimited now st p).2 = st := by
  unfold isRateLimited at h ⊢
  cases hc : st.requestCounts p with
  | none => rfl
  | some rd =>
    rw [hc] at h
    by_cases hr : now > rd.resetTime
    · simp [hr] at h
    · simp [hr]

lemma isRateLimited_snd_other (now : Nat) (st : ServiceState) (p q : Provider)
    (h : q ≠ p) :
    ((isRateLimited now st p).2).requestCounts q = st.requestCounts q := by
  unfold isRateLimited
  cases hc : st.requestCounts p with
  | none => rfl
  | some rd =>
    by_cases hr : now > rd.resetTime <;> simp [hr, setCount_other _ _ _ _ h]

lemma isRateLimited_snd_self (now : Nat) (st : ServiceState) (p : Provider) :
    ((isRateLimited now st p).2).requestCounts p = st.requestCounts p ∨
      (((isRateLimited now st p).2).requestCounts p = none ∧
        limitedPure now (st.requestCounts p) (rateLimit p) = false) := by
  unfold isRateLimited limitedPure
  cases hc : st.requestCounts p with
  | none => left; simpa using hc
  | some rd =>
    by_cases hr : now > rd.resetTime
    · right; simp [hr]
    · left; simp [hr, hc]

lemma callLLM_none_of_net_none (o : Oracle) (env : Env) (p : Provider)
    (req : LLMRequest) (h : o.net p = none) :
    callLLMProvider o env p req = none := by
  unfold callLLMProvider
  cases getValidApiKey env p <;> simp [h]

lemma callLLM_message_ne (o : Oracle) (env : Env) (p : Provider) (req : LLMRequest)
    (resp : LLMResponse) (h : callLLMProvider o env p req = some resp) :
    resp.message ≠ "" := by
  unfold callLLMProvider at h
  cases hk : getValidApiKey env p with
  | none => rw [hk] at h; exact absurd h (by simp)
  | some k =>
    rw [hk] at h
    cases hn : o.net p with
    | none => rw [hn] at h; exact absurd h (by simp)
    | some content =>
      rw [hn] at h
      have : resp = parseAIResponse o req (if content = "" then apologyText else content) := by
        exact (Option.some.injEq _ _ ▸ h).symm
      subst this
      show (if content = "" then apologyText else content) ≠ ""
      split
      · decide
      · assumption

lemma hasConfigured_of_valid (env : Env) (p : Provider)
    (h : (getValidApiKey env p).isSome = true) : hasConfiguredProviders env = true := by
  cases p <;> simp [hasConfiguredProviders, h]

lemma mem_avail_valid (env : Env) (p : Provider)
    (h : p ∈ getAvailableProviders env) : (getValidApiKey env p).isSome = true := by
  unfold getAvailableProviders at h
  cases p <;>
    cases hG : (getValidApiKey env Provider.GROQ).isSome <;>
    cases hT : (getValidApiKey env Provider.TOGETHER).isSome <;>
    cases hC : (getValidApiKey env Provider.COHERE).isSome <;>
    cases hH : (getValidApiKey env Provider.HUGGING_FACE).isSome <;>
    simp_all

lemma avail_nodup (env : Env) : (getAvailableProviders env).Nodup := by
  unfold getAvailableProviders
  cases hG : (getValidApiKey env Provider.GROQ).isSome <;>
    cases hT : (getValidApiKey env Provider.TOGETHER).isSome <;>
    cases hC : (getValidApiKey env Provider.COHERE).isSome <;>
    cases hH : (getValidApiKey env Provider.HUGGING_FACE).isSome <;>
    simp_all

lemma pick_mem (st : ServiceState) (req : LLMRequest) (a : Provider) (L : List Provider) :
    pickProvider st (a :: L) req ∈ a :: L := by
  unfold pickProvider
  by_cases h : (a :: L).contains (req.provider.getD st.currentProvider)
  · rw [if_pos h]
    exact List.mem_of_elem_eq_true h
  · rw [if_neg h]
    exact List.mem_cons_self a L

/-! ## Non-emptiness of every reply message -/

lemma config_message_ne (m : String) :
    (getConfigurationRequiredResponse m).message ≠ "" := by
  unfold getConfigurationRequiredResponse
  decide

lemma offline_message_ne (m : String) :
    (getOfflineFallbackResponse m).message ≠ "" := by
  unfold getOfflineFallbackResponse
  dsimp only
  split_ifs <;> decide

lemma tryFallback_message_ne (o : Oracle) (env : Env) (req : LLMRequest) :
    ∀ (L : List Provider) (st : ServiceState),
      (tryFallbackProviders o env req L st).1.message ≠ ""
  | [], _ => offline_message_ne req.message
  | p :: L, st => by
    unfold tryFallbackProviders
    by_cases hl : (isRateLimited o.now st p).1 = true
    · simpa [hl] using tryFallback_message_ne o env req L (isRateLimited o.now st p).2
    · cases hc : callLLMProvider o env p req with
      | none =>
        simpa [hl, hc] using tryFallback_message_ne o env req L (isRateLimited o.now st p).2
      | some resp => simpa [hl, hc] using callLLM_message_ne o env p req resp hc

/-- C1: for every input message, context and oracle behaviour — whichever
    providers are configured, throttled or failing — `processMessage` returns
    a structured reply whose `message` field is a non-empty string; no failure
    escapes to the caller (the embedding is total, so resolution is by
    construction). -/
theorem C1_processMessage_message_nonempty (o : Oracle) (env : Env)
    (st : ServiceState) (req : LLMRequest) :
    (processMessage o env st req).1.message ≠ "" := by
  unfold processMessage
  by_cases h1 : hasConfiguredProviders env = true
  · by_cases h2 : (getAvailableProviders env).isEmpty = true
    · simpa [h1, h2] using config_message_ne req.message
    · by_cases h3 :
        (isRateLimited o.now st (pickProvider st (getAvailableProviders env) req)).1 = true
      · simpa [h1, h2, h3] using
          tryFallback_message_ne o env req (getAvailableProviders env)
            (isRateLimited o.now st (pickProvider st (getAvailableProviders env) req)).2
      · cases hc : callLLMProvider o env (pickProvider st (getAvailableProviders env) req) req with
        | none =>
          simpa [h1, h2, h3, hc] using
            tryFallback_message_ne o env req (getAvailableProviders env)
              (isRateLimited o.now st (pickProvider st (getAvailableProviders env) req)).2
        | some resp =>
          simpa [h1, h2, h3, hc] using
            callLLM_message_ne o env (pickProvider st (getAvailableProviders env) req) req resp hc
  · simpa [h1] using config_message_ne req.message

/-- C2: if no provider has a valid credential, the reply is the configuration
    helper: provider label "Configuration Helper", confidence 1. -/
theorem C2_no_credentials_configuration_helper (o : Oracle) (env : Env)
    (st : ServiceState) (req : LLMRequest)
    (h : ∀ p, getValidApiKey env p = none) :
    (processMessage o env st req).1.provider = "Configuration Helper" ∧
      (processMessage o env st req).1.confidence = 1 := by
  have hc : hasConfiguredProviders env = false := by
    simp [hasConfiguredProviders, h]
  unfold processMessage
  rw [hc]
  constructor
  · rfl
  · show (getConfigurationRequiredResponse req.message).confidence = 1
    unfold getConfigurationRequiredResponse
    norm_num

/-- An environment with no credential at all. -/
def noKeyEnv : Env := fun _ => none

/-- An inert oracle for concrete scenarios. -/
def oracle0 : Oracle := ⟨0, fun _ => none, fun _ => 0, fun _ => false⟩

/-- A plain request with no context and no requested provider. -/
def reqHi : LLMRequest := { message := "hi" }

theorem C2_witness :
    (processMessage oracle0 noKeyEnv initState reqHi).1.provider = "Configuration Helper" ∧
      (processMessage oracle0 noKeyEnv initState reqHi).1.confidence = 1 :=
  C2_no_credentials_configuration_helper oracle0 noKeyEnv initState reqHi
    (fun p => by cases p <;> rfl)

/-! ## The rate-limiter window (C4) -/

/-- Record one request per element of `ts` (each element the `Date.now()` of
    that request), in order, by calls to `updateRequestCount`. -/
def recordAll (ts : List Nat) (st : ServiceState) (p : Provider) : ServiceState :=
  ts.foldl (fun s t => updateRequestCount t s p) st

lemma recordAll_window (p : Provider) :
    ∀ (ts : List Nat) (st : ServiceState) (c r : Nat),
      st.requestCounts p = some ⟨c, r⟩ → (∀ t ∈ ts, t ≤ r) →
      (recordAll ts st p).requestCounts p = some ⟨c + ts.length, r⟩
  | [], st, c, r, h, _ => by simpa [recordAll] using h
  | t :: ts, st, c, r, h, hin => by
    have hstep : (updateRequestCount t st p).requestCounts p = some ⟨c + 1, r⟩ := by
      have hle : ¬ t > r := Nat.not_lt.2 (hin t (List.mem_cons_self t ts))
      simp [updateRequestCount, h, hle]
    have ih := recordAll_window p ts (updateRequestCount t st p) (c + 1) r hstep
      (fun u hu => hin u (List.mem_cons_of_mem t hu))
    have hfold : recordAll (t :: ts) st p = recordAll ts (updateRequestCount t st p) p := rfl
    rw [hfold, ih]
    simp [Nat.add_comm, Nat.add_assoc, Nat.add_left_comm]

/-- C4: for a provider `p` with per-minute budget `rateLimit p`, recording
    exactly that many requests inside one 60-second window (first at `t0`, the
    others at times not past `t0 + 60000`) leaves the entry
    `{count = rateLimit p, resetTime = t0 + 60000}`; any `isRateLimited` query
    not past the reset timestamp reports throttled; a query strictly past it
    reports not throttled and clears the entry; and recording a request
    strictly past the reset timestamp starts a fresh window
    `{count = 1, resetTime = now + 60000}`. -/
theorem C4_rate_limiter_window (p : Provider) (st : ServiceState) (t0 : Nat)
    (rest : List Nat)
    (h0 : st.requestCounts p = none)
    (hlen : rest.length + 1 = rateLimit p)
    (hin : ∀ t ∈ rest, t ≤ t0 + 60000) :
    (recordAll (t0 :: rest) st p).requestCounts p =
        some ⟨rateLimit p, t0 + 60000⟩ ∧
      (∀ q ≤ t0 + 60000,
        (isRateLimited q (recordAll (t0 :: rest) st p) p).1 = true) ∧
      (∀ q, t0 + 60000 < q →
        (isRateLimited q (recordAll (t0 :: rest) st p) p).1 = false ∧
          ((isRateLimited q (recordAll (t0 :: rest) st p) p).2).requestCounts p = none) ∧
      (∀ q, t0 + 60000 < q →
        (updateRequestCount q (recordAll (t0 :: rest) st p) p).requestCounts p =
          some ⟨1, q + 60000⟩) := by
  have hfirst : (updateRequestCount t0 st p).requestCounts p =
      some ⟨1, t0 + 60000⟩ := by
    simp [updateRequestCount, h0]
  have hfold : recordAll (t0 :: rest) st p = recordAll rest (updateRequestCount t0 st p) p := rfl
  have hB : (recordAll (t0 :: rest) st p).requestCounts p =
      some ⟨rateLimit p, t0 + 60000⟩ := by
    rw [hfold, recordAll_window p rest (updateRequestCount t0 st p) 1 (t0 + 60000) hfirst hin]
    rw [Nat.add_comm 1 rest.length, hlen]
  refine ⟨hB, ?_, ?_, ?_⟩
  · intro q hq
    have : ¬ q > t0 + 60000 := Nat.not_lt.2 hq
    simp [isRateLimited, hB, this]
  · intro q hq
    simp [isRateLimited, hB, hq]
  · intro q hq
    simp [updateRequestCount, hB, hq]

theorem C4_witness :
    (recordAll (0 :: List.replicate 29 0) initState Provider.GROQ).requestCounts
        Provider.GROQ = some ⟨rateLimit Provider.GROQ, 60000⟩ ∧
      (isRateLimited 60000 (recordAll (0 :: List.replicate 29 0) initState Provider.GROQ)
        Provider.GROQ).1 = true ∧
      (isRateLimited 60001 (recordAll (0 :: List.replicate 29 0) initState Provider.GROQ)
        Provider.GROQ).1 = false ∧
      ((isRateLimited 60001 (recordAll (0 :: List.replicate 29 0) initState Provider.GROQ)
        Provider.GROQ).2).requestCounts Provider.GROQ = none ∧
      (updateRequestCount 60001 (recordAll (0 :: List.replicate 29 0) initState Provider.GROQ)
        Provider.GROQ).requestCounts Provider.GROQ = some ⟨1, 120001⟩ := by
  have h := C4_rate_limiter_window Provider.GROQ initState 0 (List.replicate 29 0)
    rfl (by decide) (by decide)
  exact ⟨h.1, h.2.1 60000 (by decide), (h.2.2.1 60001 (by decide)).1,
    (h.2.2.1 60001 (by decide)).2, by simpa using h.2.2.2 60001 (by decide)⟩

/-! ## Offline fallback when every provider is throttled or failing (C3) -/

/-- Modelled from the spec wording of the offline keyword selection, which
    lists the fault/error/code keywords first. Used only to compare the claim
    with the code's selection (the code checks part/component first). -/
def specOfflineMessage (message : String) : String :=
  let m := jsToLower message
  if hasSubstr m ("fault") || hasSubstr m ("error") || hasSubstr m ("code") then
    faultFallbackText
  else if hasSubstr m ("part") || hasSubstr m ("component") then
    partsFallbackText
  else if hasSubstr m ("maintenance") || hasSubstr m ("service") then
    maintenanceFallbackText
  else
    genericFallbackText

lemma avail_ne_of_configured (env : Env) (hc : hasConfiguredProviders env = true) :
    (getAvailableProviders env).isEmpty = false := by
  unfold hasConfiguredProviders at hc
  unfold getAvailableProviders
  cases hG : (getValidApiKey env Provider.GROQ).isSome <;>
    cases hT : (getValidApiKey env Provider.TOGETHER).isSome <;>
    cases hC : (getValidApiKey env Provider.COHERE).isSome <;>
    cases hH : (getValidApiKey env Provider.HUGGING_FACE).isSome <;>
    simp_all

lemma tryFallback_all_blocked (o : Oracle) (env : Env) (req : LLMRequest) :
    ∀ (L : List Provider) (st : ServiceState),
      (∀ p ∈ L, limitedPure o.now (st.requestCounts p) (rateLimit p) = true ∨
        callLLMProvider o env p req = none) →
      (tryFallbackProviders o env req L st).1 = getOfflineFallbackResponse req.message
  | [], _, _ => rfl
  | p :: L, st, h => by
    by_cases hl : limitedPure o.now (st.requestCounts p) (rateLimit p) = true
    · have hfst : (isRateLimited o.now st p).1 = true := by
        rw [fst_isRateLimited]; exact hl
      have hsnd : (isRateLimited o.now st p).2 = st := isRateLimited_true_snd _ _ _ hfst
      have ih := tryFallback_all_blocked o env req L st
        (fun q hq => h q (List.mem_cons_of_mem p hq))
      unfold tryFallbackProviders
      simpa [hfst, hsnd] using ih
    · have hcall : callLLMProvider o env p req = none :=
        (h p (List.mem_cons_self p L)).resolve_left hl
      have hfst : (isRateLimited o.now st p).1 = false := by
        rw [fst_isRateLimited]; exact Bool.eq_false_iff.mpr hl
      have hpre : ∀ q ∈ L,
          limitedPure o.now (((isRateLimited o.now st p).2).requestCounts q)
            (rateLimit q) = true ∨ callLLMProvider o env q req = none := by
        intro q hq
        by_cases hqp : q = p
        · subst hqp; exact Or.inr hcall
        · rw [isRateLimited_snd_other o.now st p q hqp]
          exact h q (List.mem_cons_of_mem p hq)
      have ih := tryFallback_all_blocked o env req L (isRateLimited o.now st p).2 hpre
      unfold tryFallbackProviders
      simpa [hfst, hcall] using ih

/-- C3 (amended): if every provider with a valid credential is throttled or
    its network call fails, `processMessage` returns the offline fallback
    reply: provider label "Offline Fallback", confidence 0.6, and message
    selected by keyword on the lowercased input with the part/component
    keywords checked FIRST, then fault/error/code, then maintenance/service,
    else the generic default. (The claim as frozen lists fault/error/code
    first; the code gives parts precedence — see the counterexample.) -/
theorem C3_all_blocked_offline_fallback (o : Oracle) (env : Env)
    (st : ServiceState) (req : LLMRequest)
    (hc : hasConfiguredProviders env = true)
    (hall : ∀ p, (getValidApiKey env p).isSome = true →
      limitedPure o.now (st.requestCounts p) (rateLimit p) = true ∨ o.net p = none) :
    (processMessage o env st req).1 = getOfflineFallbackResponse req.message ∧
      (processMessage o env st req).1.provider = "Offline Fallback" ∧
      (processMessage o env st req).1.confidence = 0.6 ∧
      (processMessage o env st req).1.message =
        (if hasSubstr (jsToLower req.message) ("part")
            || hasSubstr (jsToLower req.message) ("component") then
          partsFallbackText
        else if hasSubstr (jsToLower req.message) ("fault")
            || hasSubstr (jsToLower req.message) ("error")
            || hasSubstr (jsToLower req.message) ("code") then
          faultFallbackText
        else if hasSubstr (jsToLower req.message) ("maintenance")
            || hasSubstr (jsToLower req.message) ("service") then
          maintenanceFallbackText
        else
          genericFallbackText) := by
  have hblock : ∀ p ∈ getAvailableProviders env,
      limitedPure o.now (st.requestCounts p) (rateLimit p) = true ∨
        callLLMProvider o env p req = none := by
    intro p hp
    exact (hall p (mem_avail_valid env p hp)).imp_right
      (callLLM_none_of_net_none o env p req)
  have h2 := avail_ne_of_configured env hc
  have hmain : (processMessage o env st req).1 = getOfflineFallbackResponse req.message := by
    unfold processMessage
    rw [hc]
    cases ha : getAvailableProviders env with
    | nil => rw [ha] at h2; simp at h2
    | cons a l =>
      have hmem : pickProvider st (a :: l) req ∈ a :: l := pick_mem st req a l
      have hvalid : (getValidApiKey env (pickProvider st (a :: l) req)).isSome = true := by
        apply mem_avail_valid env _
        rw [ha]; exact hmem
      by_cases hlim : (isRateLimited o.now st (pickProvider st (a :: l) req)).1 = true
      · have hsnd := isRateLimited_true_snd o.now st (pickProvider st (a :: l) req) hlim
        have := tryFallback_all_blocked o env req (a :: l) st (by rw [← ha]; exact hblock)
        simpa [ha, hlim, hsnd] using this
      · have hlp : limitedPure o.now
            (st.requestCounts (pickProvider st (a :: l) req))
            (rateLimit (pickProvider st (a :: l) req)) = false := by
          rw [← fst_isRateLimited]; exact Bool.eq_false_iff.mpr hlim
        have hnet : o.net (pickProvider st (a :: l) req) = none := by
          rcases hall _ hvalid with hL | hR
          · rw [hlp] at hL; exact absurd hL (by simp)
          · exact hR
        have hcall := callLLM_none_of_net_none o env (pickProvider st (a :: l) req) req hnet
        have hpre : ∀ q ∈ a :: l,
            limitedPure o.now
              (((isRateLimited o.now st (pickProvider st (a :: l) req)).2).requestCounts q)
              (rateLimit q) = true ∨ callLLMProvider o env q req = none := by
          intro q hq
          by_cases hqp : q = pickProvider st (a :: l) req
          · subst hqp; exact Or.inr hcall
          · rw [isRateLimited_snd_other o.now st _ q hqp]
            apply hblock; rw [ha]; exact hq
        have := tryFallback_all_blocked o env req (a :: l)
          (isRateLimited o.now st (pickProvider st (a :: l) req)).2 hpre
        simpa [ha, hlim, hcall] using this
  refine ⟨hmain, ?_, ?_, ?_⟩
  · rw [hmain]; rfl
  · rw [hmain]; rfl
  · rw [hmain]; rfl

/-- An environment where only GROQ carries a usable credential. -/
def oneKeyEnv : Env := fun p =>
  match p with
  | Provider.GROQ => some ("gsk-live-key")
  | _ => none

/-- A state in which GROQ has exhausted its 30-request budget in a window
    that resets at t = 100000. -/
def throttledGroqState : ServiceState :=
  { currentProvider := Provider.GROQ
    requestCounts := fun p =>
      match p with
      | Provider.GROQ => some ⟨30, 100000⟩
      | _ => none }

/-- An oracle at t = 50 whose every network call fails. -/
def failNetOracle : Oracle := ⟨50, fun _ => none, fun _ => 0, fun _ => false⟩

/-- A message containing both the "part" and the "fault" keyword. -/
def reqPartFault : LLMRequest := { message := "part fault" }

set_option maxRecDepth 8192 in
theorem C3_witness :
    (processMessage failNetOracle oneKeyEnv throttledGroqState reqPartFault).1.provider
        = "Offline Fallback" ∧
      (processMessage failNetOracle oneKeyEnv throttledGroqState reqPartFault).1.confidence
        = 0.6 ∧
      (processMessage failNetOracle oneKeyEnv throttledGroqState reqPartFault).1.message
        = partsFallbackText := by
  have h := C3_all_blocked_offline_fallback failNetOracle oneKeyEnv throttledGroqState
    reqPartFault (by decide)
    (fun p hp => by
      cases p with
      | GROQ => exact Or.inl (by decide)
      | TOGETHER => exact absurd hp (by decide)
      | COHERE => exact absurd hp (by decide)
      | HUGGING_FACE => exact absurd hp (by decide))
  exact ⟨h.2.1, h.2.2.1, by rw [h.2.2.2]; decide⟩

set_option maxRecDepth 8192 in
/-- C3 as frozen gives the fault/error/code keywords precedence over
    part/component. On the message "part fault" (which contains "fault") with
    the sole configured provider throttled, the code returns the
    parts-flavoured text, not the fault-flavoured text the claim's ordering
    predicts. -/
theorem C3_counterexample :
    hasSubstr (jsToLower ("part fault")) ("fault") = true ∧
      (processMessage failNetOracle oneKeyEnv throttledGroqState reqPartFault).1.message
        = partsFallbackText ∧
      (processMessage failNetOracle oneKeyEnv throttledGroqState reqPartFault).1.message
        ≠ specOfflineMessage ("part fault") := by
  decide

/-! ## Fallback ordering around a throttled preferred provider (C5) -/

lemma tryFallback_skip (o : Oracle) (env : Env) (req : LLMRequest) (p : Provider)
    (rest : List Provider) (st : ServiceState)
    (h : (isRateLimited o.now st p).1 = true) :
    tryFallbackProviders o env req (p :: rest) st =
      tryFallbackProviders o env req rest st := by
  have hs := isRateLimited_true_snd o.now st p h
  conv_lhs => unfold tryFallbackProviders
  simp [h, hs]

lemma tryFallback_head_success (o : Oracle) (env : Env) (req : LLMRequest)
    (p : Provider) (rest : List Provider) (st : ServiceState) (resp : LLMResponse)
    (hlim : (isRateLimited o.now st p).1 = false)
    (hcall : callLLMProvider o env p req = some resp) :
    tryFallbackProviders o env req (p :: rest) st =
      ({ resp with provider := providerName p },
       { (isRateLimited o.now st p).2 with currentProvider := p }, [p]) := by
  unfold tryFallbackProviders
  simp [hlim, hcall]

lemma avail_pair (env : Env) (A B : Provider) (hAB : A ≠ B)
    (hA : (getValidApiKey env A).isSome = true)
    (hB : (getValidApiKey env B).isSome = true)
    (hOther : ∀ p, p ≠ A → p ≠ B → (getValidApiKey env p).isSome = false) :
    getAvailableProviders env = [A, B] ∨ getAvailableProviders env = [B, A] := by
  have hq : ∀ q, (getValidApiKey env q).isSome = (q == A || q == B) := by
    intro q
    by_cases h1 : q = A
    · subst h1; simp [hA]
    · by_cases h2 : q = B
      · subst h2; simp [hB]
      · simp [hOther q h1 h2, h1, h2]
  cases A <;> cases B <;> simp_all [getAvailableProviders]

/-- C5: with a caller-requested provider `A` that is configured but throttled
    and a second configured provider `B` that is not throttled and whose call
    succeeds (and no other provider configured), `processMessage` returns a
    reply labelled with B's display name, and A is never invoked. -/
theorem C5_throttled_requested_uses_fallback (o : Oracle) (env : Env)
    (st : ServiceState) (req : LLMRequest) (A B : Provider) (s : String)
    (hAB : A ≠ B)
    (hA : (getValidApiKey env A).isSome = true)
    (hB : (getValidApiKey env B).isSome = true)
    (hOther : ∀ p, p ≠ A → p ≠ B → (getValidApiKey env p).isSome = false)
    (hreq : req.provider = some A)
    (hAlim : limitedPure o.now (st.requestCounts A) (rateLimit A) = true)
    (hBlim : limitedPure o.now (st.requestCounts B) (rateLimit B) = false)
    (hnet : o.net B = some s) :
    (processMessage o env st req).1.provider = providerName B ∧
      A ∉ (processMessage o env st req).2.2 := by
  have hc := hasConfigured_of_valid env A hA
  have hAfst : (isRateLimited o.now st A).1 = true := by
    rw [fst_isRateLimited]; exact hAlim
  have hAsnd := isRateLimited_true_snd o.now st A hAfst
  have hBfst : (isRateLimited o.now st B).1 = false := by
    rw [fst_isRateLimited]; exact hBlim
  obtain ⟨kB, hkB⟩ := Option.isSome_iff_exists.mp hB
  have hBcall : callLLMProvider o env B req =
      some (parseAIResponse o req (if s = "" then apologyText else s)) := by
    unfold callLLMProvider
    rw [hkB, hnet]
  rcases avail_pair env A B hAB hA hB hOther with h | h
  · have hpick : pickProvider st [A, B] req = A := by
      simp [pickProvider, hreq]
    have hred : processMessage o env st req =
        tryFallbackProviders o env req [A, B] st := by
      unfold processMessage
      rw [hc, h]
      simp [hpick, hAfst, hAsnd]
    rw [hred, tryFallback_skip o env req A [B] st hAfst,
      tryFallback_head_success o env req B [] st _ hBfst hBcall]
    exact ⟨rfl, by simp [hAB]⟩
  · have hpick : pickProvider st [B, A] req = A := by
      simp [pickProvider, hreq]
    have hred : processMessage o env st req =
        tryFallbackProviders o env req [B, A] st := by
      unfold processMessage
      rw [hc, h]
      simp [hpick, hAfst, hAsnd]
    rw [hred, tryFallback_head_success o env req B [A] st _ hBfst hBcall]
    exact ⟨rfl, by simp [hAB]⟩

/-- An environment where GROQ and COHERE carry usable credentials. -/
def twoKeyEnv : Env := fun p =>
  match p with
  | Provider.GROQ => some ("gsk-live-key")
  | Provider.COHERE => some ("co-live-key")
  | _ => none

/-- An oracle at t = 50 for which only COHERE answers. -/
def cohereOkOracle : Oracle :=
  ⟨50, fun p => match p with | Provider.COHERE => some ("ok") | _ => none,
   fun _ => 0, fun _ => false⟩

/-- A request explicitly asking for the GROQ provider. -/
def reqAskGroq : LLMRequest := { message := "hi", provider := some Provider.GROQ }

set_option maxRecDepth 8192 in
theorem C5_witness :
    (processMessage cohereOkOracle twoKeyEnv throttledGroqState reqAskGroq).1.provider
        = providerName Provider.COHERE ∧
      Provider.GROQ ∉
        (processMessage cohereOkOracle twoKeyEnv throttledGroqState reqAskGroq).2.2 :=
  C5_throttled_requested_uses_fallback cohereOkOracle twoKeyEnv throttledGroqState
    reqAskGroq Provider.GROQ Provider.COHERE "ok" (by decide) (by decide) (by decide)
    (fun p h1 h2 => by
      cases p with
      | GROQ => exact absurd rfl h1
      | TOGETHER => decide
      | COHERE => exact absurd rfl h2
      | HUGGING_FACE => decide)
    rfl (by decide) (by decide) rfl

/-! ## The fallback pass visits each provider at most once (C6) -/

lemma tryFallback_trace_sublist (o : Oracle) (env : Env) (req : LLMRequest) :
    ∀ (L : List Provider) (st : ServiceState),
      (tryFallbackProviders o env req L st).2.2.Sublist L
  | [], _ => List.nil_sublist []
  | p :: L, st => by
    conv_lhs => unfold tryFallbackProviders
    by_cases hl : (isRateLimited o.now st p).1 = true
    · simp only [hl, if_true]
      exact (tryFallback_trace_sublist o env req L (isRateLimited o.now st p).2).cons p
    · simp only [hl, if_false, Bool.false_eq_true]
      cases hc : callLLMProvider o env p req with
      | some resp => simp [hc]
      | none =>
        simpa [hc] using
          (tryFallback_trace_sublist o env req L (isRateLimited o.now st p).2).cons₂ p

/-- C6 (amended): within one `processMessage` call the orchestrator makes at
    most the initial attempt plus a single pass over the available-provider
    list: the trace after the initial attempt is a subsequence of that list
    and names no provider twice. The initially attempted provider itself MAY
    be attempted a second time inside the pass when its first invocation
    failed (the pass does not exclude it) — see the counterexample. -/
theorem C6_amended_single_fallback_pass (o : Oracle) (env : Env)
    (st : ServiceState) (req : LLMRequest) :
    ((processMessage o env st req).2.2.tail).Sublist (getAvailableProviders env) ∧
      ((processMessage o env st req).2.2.tail).Nodup := by
  unfold processMessage
  by_cases h1 : hasConfiguredProviders env = true
  · by_cases h2 : (getAvailableProviders env).isEmpty = true
    · simp [h1, h2]
    · by_cases h3 :
        (isRateLimited o.now st (pickProvider st (getAvailableProviders env) req)).1 = true
      · have hsub := tryFallback_trace_sublist o env req (getAvailableProviders env)
          (isRateLimited o.now st (pickProvider st (getAvailableProviders env) req)).2
        have hs := (List.tail_sublist
          (tryFallbackProviders o env req (getAvailableProviders env)
            (isRateLimited o.now st (pickProvider st (getAvailableProviders env) req)).2).2.2).trans
          hsub
        constructor
        · simpa [h1, h2, h3] using hs
        · simpa [h1, h2, h3] using (avail_nodup env).sublist hs
      · cases hc : callLLMProvider o env (pickProvider st (getAvailableProviders env) req) req with
        | some resp => simp [h1, h2, h3, hc]
        | none =>
          have hsub := tryFallback_trace_sublist o env req (getAvailableProviders env)
            (isRateLimited o.now st (pickProvider st (getAvailableProviders env) req)).2
          constructor
          · simpa [h1, h2, h3, hc] using hsub
          · simpa [h1, h2, h3, hc] using (avail_nodup env).sublist hsub
  · simp [h1]

set_option maxRecDepth 8192 in
/-- C6 as frozen says no provider is ever invoked again after one of its
    invocations failed. With GROQ the sole configured provider, not throttled,
    and its network call failing, the trace shows GROQ invoked a second time
    (by the fallback pass) right after its first invocation failed. -/
theorem C6_counterexample :
    failNetOracle.net Provider.GROQ = none ∧
      (processMessage failNetOracle oneKeyEnv initState reqHi).2.2
        = [Provider.GROQ, Provider.GROQ] :=
  ⟨rfl, by decide⟩

set_option maxRecDepth 8192 in
/-- C7: a successful provider call made during the fallback pass is NOT
    recorded against the provider's rate state — `tryFallbackProviders`
    (lines 494-515) returns without calling `updateRequestCount`, although
    the claim (and lines 175-181 for the primary path) requires recording on
    every success. Here COHERE answers during the fallback pass (GROQ being
    throttled), the reply carries COHERE's display name, yet COHERE's window
    counter stays absent. -/
theorem C7_fallback_success_not_recorded :
    (processMessage cohereOkOracle twoKeyEnv throttledGroqState reqHi).1.provider
        = "Cohere" ∧
      (processMessage cohereOkOracle twoKeyEnv throttledGroqState reqHi).2.2
        = [Provider.COHERE] ∧
      ((processMessage cohereOkOracle twoKeyEnv throttledGroqState reqHi).2.1).requestCounts
        Provider.COHERE = none := by
  decide

/-! ## Provider selection when none is requested or the requested one is
    invalid (C8) -/

/-- An oracle at t = 50 for which every provider answers. -/
def allOkOracle : Oracle := ⟨50, fun _ => some ("ok"), fun _ => 0, fun _ => false⟩

set_option maxRecDepth 8192 in
/-- C8 as frozen says that, with no requested provider, the first configured
    provider in the fixed order (here GROQ) is selected, independent of
    earlier calls. After one call in which GROQ failed and COHERE answered
    (mutating `currentProvider`), the same request is served by COHERE, while
    from a fresh state it is served by GROQ. -/
theorem C8_counterexample :
    (getAvailableProviders twoKeyEnv).head? = some Provider.GROQ ∧
      (processMessage allOkOracle twoKeyEnv
          ((processMessage cohereOkOracle twoKeyEnv initState reqHi).2.1) reqHi).1.provider
        = "Cohere" ∧
      (processMessage allOkOracle twoKeyEnv initState reqHi).1.provider = "Groq" := by
  decide

/-- C8 (amended): when the caller requests a provider that has no valid
    credential, the selection falls to the head of the available-provider
    list, which `getAvailableProviders` builds in the fixed order Groq,
    Together AI, Cohere, Hugging Face — i.e. the first configured provider in
    that order. (When no provider is requested at all, the mutable
    `currentProvider` — initially GROQ but switched by successful fallbacks of
    earlier calls — is preferred instead, so that case does depend on earlier
    outcomes; see the counterexample.) -/
theorem C8_amended_invalid_request_selects_first (env : Env) (st : ServiceState)
    (req : LLMRequest) (p : Provider)
    (hreq : req.provider = some p)
    (hp : getValidApiKey env p = none) :
    pickProvider st (getAvailableProviders env) req
      = (getAvailableProviders env).headD Provider.GROQ := by
  have hmem : p ∉ getAvailableProviders env := by
    intro h
    have := mem_avail_valid env p h
    rw [hp] at this
    exact absurd this (by simp)
  unfold pickProvider
  rw [hreq]
  simp only [Option.getD_some]
  rw [if_neg]
  simpa using hmem

/-- An environment where only COHERE carries a usable credential. -/
def cohereOnlyEnv : Env := fun p =>
  match p with
  | Provider.COHERE => some ("co-live-key")
  | _ => none

set_option maxRecDepth 8192 in
theorem C8_witness :
    pickProvider initState (getAvailableProviders cohereOnlyEnv) reqAskGroq
      = Provider.COHERE := by
  have h := C8_amended_invalid_request_selects_first cohereOnlyEnv initState reqAskGroq
    Provider.GROQ rfl (by decide)
  rw [h]
  decide

/-! ## Response parsing (C9, C10) -/

set_option maxRecDepth 8192 in
/-- C9: on raw model text consisting of the single part line
    "Part: Oil Filter (Part #: 1R-0750) - keeps contaminants out", the parser
    extracts exactly one part-suggestion record, with part number "1R-0750",
    name "Oil Filter" and reason "keeps contaminants out" (price and stock are
    the fabricated placeholder values, compatibility echoes the request's
    serial numbers). -/
theorem C9_part_parse_roundtrip (o : Oracle) (req : LLMRequest) :
    (parseAIResponse o req
        ("Part: Oil Filter (Part #: 1R-0750) - keeps contaminants out")).suggestions =
      some [{ partNumber := "1R-0750"
              name := "Oil Filter"
              compatibility := req.equipmentSerialNumbers.getD []
              price := o.price 0 % 500 + 50
              inStock := o.stock 0
              aiRecommended := true
              reasonForSuggestion := "keeps contaminants out" }] := by
  rfl

set_option maxRecDepth 8192 in
/-- C10: the parser does not constrain the stored severity to the four
    declared levels — line 472 casts whatever text follows "Severity:" with
    `as any`. On a reply announcing severity "Extreme", the produced
    fault-code record carries severity "extreme", which is none of
    low/medium/high/critical; the claim fails on the code. -/
theorem C10_severity_escapes_enum (o : Oracle) (req : LLMRequest) :
    ((parseAIResponse o req
        ("Fault Code: E362 - Engine fault\nSeverity: Extreme\nPossible Causes: wiring\nRecommended Actions: inspect")).faultCodeInfo).map
        FaultCodeInfo.severity = some ("extreme") ∧
      ("extreme" : String) ≠ "low" ∧ ("extreme" : String) ≠ "medium" ∧
      ("extreme" : String) ≠ "high" ∧ ("extreme" : String) ≠ "critical" :=
  ⟨rfl, by decide, by decide, by decide, by decide⟩
